import Mathlib

/-!
Formal model of the Sentry32 firmware (src/Sentry32.ino).

Each definition is a shallow embedding of one function of the sketch:
pure data flow is kept literally, while hardware and network effects are
turned into explicit parameters (the outcome of the HTTP basic-auth
check, the ARP resolver, the wifiOk flag as sampled at each iteration,
the HTTP POST status code, and the uninitialized stack memory that
handleWake reads when sscanf assigns fewer than six octets).
-/

/-- An IPv4 address as four octets, modelling the Arduino IPAddress value. -/
abbrev IP := Nat × Nat × Nat × Nat

/-- MAX_DEVICES from the sketch (line 39). -/
def MAX_DEVICES : Nat := 32

/-- SCAN_INTERVAL in milliseconds (line 40). -/
def SCAN_INTERVAL : Nat := 300000

/-- addDevice (lines 191-201): linear duplicate scan, append below
capacity; the Bool result is the return value of the C function. -/
def addDevice (reg : List String) (mac : String) : List String × Bool :=
  if mac ∈ reg then (reg, false)
  else if reg.length < MAX_DEVICES then (reg ++ [mac], true)
  else (reg, false)

/-- The registry reached by a sequence of addDevice calls starting from
the empty registry (deviceCount = 0). -/
def runAdds (macs : List String) : List String :=
  macs.foldl (fun r m => (addDevice r m).1) []

/-- loadDevices (lines 169-179): read the persisted count, reset it to
zero when it exceeds MAX_DEVICES, then read that many entries in index
order; stored i is the value persisted under key mac i. -/
def loadDevices (storedCount : Nat) (stored : Nat → String) : List String :=
  let c := if storedCount > MAX_DEVICES then 0 else storedCount
  (List.range c).map stored

/-- Value of a hex digit, as accepted by the %hhx conversions of the
sscanf call in handleWake. -/
def hexVal (c : Char) : Option Nat :=
  if 48 ≤ c.toNat ∧ c.toNat ≤ 57 then some (c.toNat - 48)
  else if 97 ≤ c.toNat ∧ c.toNat ≤ 102 then some (c.toNat - 87)
  else if 65 ≤ c.toNat ∧ c.toNat ≤ 70 then some (c.toNat - 55)
  else none

/-- Whitespace skipped before a %hhx conversion. -/
def isSpaceChar (c : Char) : Bool :=
  c.toNat = 32 || c.toNat = 9 || c.toNat = 10 || c.toNat = 11 || c.toNat = 12 || c.toNat = 13

/-- Skip leading whitespace. -/
def dropSpaces : List Char → List Char
  | [] => []
  | c :: cs => if isSpaceChar c then dropSpaces cs else c :: cs

/-- Consume a run of hex digits, accumulating the value as an unsigned
char: the hh length modifier truncates the converted value to one byte. -/
def takeHex : Nat → List Char → Nat × List Char
  | acc, [] => (acc, [])
  | acc, c :: cs =>
    match hexVal c with
    | some d => takeHex ((16 * acc + d) % 256) cs
    | none => (acc, c :: cs)

/-- The sscanf call of handleWake (lines 352-353): parse up to six hex
octets separated by literal colons, stop at the first mismatch, and
return exactly the octets that were assigned.  The optional sign and 0x
forms that strtoul would also accept are not modelled; no MAC string
rendered by this firmware uses them. -/
def scanOctets : Nat → List Char → List Nat
  | 0, _ => []
  | fuel + 1, cs =>
    match dropSpaces cs with
    | [] => []
    | c :: cs2 =>
      match hexVal c with
      | none => []
      | some _ =>
        let p := takeHex 0 (c :: cs2)
        match fuel with
        | 0 => [p.1]
        | _ + 1 =>
          match p.2 with
          | ':' :: rest => p.1 :: scanOctets fuel rest
          | _ => [p.1]

/-- Full parse of the mac query argument with format
%hhx:%hhx:%hhx:%hhx:%hhx:%hhx. -/
def sscanfMac (cs : List Char) : List Nat := scanOctets 6 cs

/-- The packet layout built in handleWake lines 355-357: six 0xFF bytes,
then sixteen copies of the six address bytes. -/
def buildMagicPacket (m : Fin 6 → Nat) : List Nat :=
  List.replicate 6 255 ++ (List.replicate 16 (List.ofFn m)).flatten

/-- The observable outcome of one wake request: the UDP payload that was
broadcast, if any, and the HTTP status code of the reply. -/
structure WakeOut where
  sent : Option (List Nat)
  code : Nat

/-- handleWake (lines 347-365): after the auth gate the MAC argument is
parsed by sscanf, whose return value the sketch never checks; octets the
parse did not assign keep the uninitialized stack content of m, supplied
here by the junk parameter.  A packet is always built and broadcast, and
the reply is always a 303 redirect. -/
def handleWake (authOk : Bool) (mac : List Char) (junk : Fin 6 → Nat) : WakeOut :=
  match authOk with
  | false => { sent := none, code := 401 }
  | true =>
    let parsed := sscanfMac mac
    let m : Fin 6 → Nat := fun i =>
      if h : i.val < parsed.length then parsed.get ⟨i.val, h⟩ else junk i
    { sent := some (buildMagicPacket m), code := 303 }

/-- handleScan (lines 328-333): result is the new scanRequested flag and
the HTTP status code; 401 models the requestAuthentication reply of
checkAuth (lines 111-117). -/
def handleScan (authOk : Bool) (scanRequested : Nat) : Nat × Nat :=
  match authOk with
  | false => (scanRequested, 401)
  | true => ((if scanRequested = 0 then 1 else scanRequested), 200)

/-- handleDevices (lines 335-345): the rendered list is the registry in
storage order. -/
def handleDevices (authOk : Bool) (reg : List String) : Option (List String) × Nat :=
  match authOk with
  | false => (none, 401)
  | true => (some reg, 200)

/-- handleClear (lines 367-377): the stored namespace is wiped and the
in-memory count zeroed. -/
def handleClear (authOk : Bool) (reg : List String) : List String × Nat :=
  match authOk with
  | false => (reg, 401)
  | true => ([], 303)

/-- The candidate address with last octet i inside the /24 of the local
IP (lines 223 and 234-235). -/
def subnetHost (lip : IP) (i : Nat) : IP := (lip.1, lip.2.1, lip.2.2.1, i)

/-- One uppercase hex digit of the %02X conversion. -/
def hexDigitChar (n : Nat) : Char :=
  if n < 10 then Char.ofNat (48 + n) else Char.ofNat (55 + n)

/-- Two-digit uppercase hex rendering of a byte. -/
def byteHex (b : Nat) : List Char :=
  [hexDigitChar (b / 16 % 16), hexDigitChar (b % 16)]

/-- The sprintf of lines 270-272: uppercase colon-separated hex. -/
def macToString (mac : List Nat) : String :=
  String.mk (List.intercalate [':'] (mac.map byteHex))

/-- The host loop of doScan (lines 228-280).  wifi i is the wifiOk flag
as sampled at iteration i (line 232); resolve i is the MAC the two
etharp attempts of lines 258-266 produced for host i, or none when both
attempts failed.  First component: the hosts handed to Ping.ping, in
order; second component: the final registry. -/
def scanLoop (wifi : Nat → Bool) (lip gw : IP) (resolve : Nat → Option (List Nat)) :
    Nat → Nat → List String → List IP × List String
  | _, 0, reg => ([], reg)
  | i, fuel + 1, reg =>
    if wifi i then
      let t := subnetHost lip i
      if t = lip ∨ t = gw then scanLoop wifi lip gw resolve (i + 1) fuel reg
      else
        let reg2 :=
          match resolve i with
          | none => reg
          | some macBytes =>
            let s := macToString macBytes
            if s ≠ "00:00:00:00:00:00" ∧ s ≠ "FF:FF:FF:FF:FF:FF" then (addDevice reg s).1
            else reg
        let rest := scanLoop wifi lip gw resolve (i + 1) fuel reg2
        (t :: rest.1, rest.2)
    else ([], reg)

/-- doScan (lines 210-285): the entry guards of lines 211-220 (interface
ready, non-zero local IP), then the host loop over last octets 1..254. -/
def doScan (netifReady : Bool) (wifi : Nat → Bool) (lip gw : IP)
    (resolve : Nat → Option (List Nat)) (reg : List String) : List IP × List String :=
  match netifReady with
  | false => ([], reg)
  | true =>
    if lip = ((0 : Nat), (0 : Nat), (0 : Nat), (0 : Nat)) then ([], reg)
    else scanLoop wifi lip gw resolve 1 254 reg

/-- The automatic-scan decision of one scanTask iteration (lines
298-307): whether doScan ran, and the new lastScanMillis.  The sketch
requires wifiOk and strictly more than 60000 ms since the last state
change, and resets lastScanMillis whenever the interval elapsed, scan or
no scan. -/
def scanTaskStep (now lastScan lastStateChange : Nat) (wifiOk : Bool) : Bool × Nat :=
  let stable := wifiOk && decide (now - lastStateChange > 60000)
  if now - lastScan ≥ SCAN_INTERVAL then (stable, now) else (false, lastScan)

/-- sendHeartbeat (lines 398-428): early false without a POST when wifi
is down or the gateway is zero; otherwise the POST runs and only status
200 counts as success (HTTPClient returns a negative code on transport
errors, which is never 200). -/
def sendHeartbeat (wifiOk : Bool) (gw : IP) (postCode : Int) : Bool :=
  match wifiOk with
  | false => false
  | true =>
    if gw = ((0 : Nat), (0 : Nat), (0 : Nat), (0 : Nat)) then false
    else decide (postCode = 200)

/-- The heartbeat block of loop (lines 557-568): when wifi is up and the
interval elapsed an attempt is made, and the interval is rewritten from
that outcome alone.  Result: (new lastHeartbeat, new heartbeatInterval). -/
def loopHeartbeatStep (wifiOk : Bool) (now lastHeartbeat interval : Nat) (gw : IP)
    (postCode : Int) : Nat × Nat :=
  if wifiOk = true ∧ now - lastHeartbeat ≥ interval then
    (now, if sendHeartbeat wifiOk gw postCode then 300000 else 30000)
  else (lastHeartbeat, interval)

/-- Modelled from the spec, section 4.2, for comparison only, because the
source contains no rate limiter at all: the backoff penalty in
milliseconds after n consecutive failures. -/
def specPenalty (n : Nat) : Nat := min (5000 * 10 ^ (n - 1)) (48 * 3600 * 1000)

/-- Modelled from the spec, section 4.2, for comparison only: a caller
with the given failure count whose last failure happened at time
lastFail is throttled at time now while now precedes the next-allowed
time lastFail + penalty. -/
def specThrottled (failures lastFail now : Nat) : Bool :=
  decide (now < lastFail + specPenalty failures)

/-- C10: loading the persisted device list with stored count c yields
exactly the c stored entries in index order when c is at most 32, and an
empty registry (count reset to zero, every entry dropped, no truncation
to 32) when c exceeds 32; the loaded count never exceeds 32. -/
theorem loadDevices_count_policy (c : Nat) (stored : Nat → String) :
    loadDevices c stored = (if c ≤ 32 then (List.range c).map stored else [])
    ∧ (loadDevices c stored).length ≤ 32 := by
  unfold loadDevices MAX_DEVICES
  by_cases h : c ≤ 32
  · have h2 : ¬ c > 32 := by omega
    simp [h, h2]
  · have h2 : c > 32 := by omega
    simp [h, h2]

/-- C9: counterexample at the stability boundary.  With the last state
change 60000 ms ago, connectivity has been stable for at least 60
seconds and the 5-minute scan interval has elapsed, yet scanTask does
not run the automatic pass, because the sketch requires strictly more
than 60000 ms of stability. -/
theorem scanTask_boundary_no_scan :
    (300000 : Nat) - 0 ≥ SCAN_INTERVAL ∧ (300000 : Nat) - 240000 ≥ 60000 ∧
    (scanTaskStep 300000 0 240000 true).1 = false := by
  refine ⟨by decide, by decide, ?_⟩
  decide

/-- C9 (amended): the scan-coordination task runs an automatic scan pass
whenever the 5-minute scan interval has elapsed since the last scan and
connectivity has been stable for strictly more than 60 seconds, and it
then resets the scan timer to the current time. -/
theorem scanTask_auto_scan (now lastScan lastStateChange : Nat)
    (h1 : now - lastScan ≥ SCAN_INTERVAL) (h2 : now - lastStateChange > 60000) :
    (scanTaskStep now lastScan lastStateChange true).1 = true
    ∧ (scanTaskStep now lastScan lastStateChange true).2 = now := by
  unfold scanTaskStep
  simp [h1, h2]

/-- Witness for the amended C9 at a concrete instant: 400000 ms now,
last scan at 0, last state change at 0. -/
theorem scanTask_auto_scan_witness :
    (scanTaskStep 400000 0 0 true).1 = true ∧ (scanTaskStep 400000 0 0 true).2 = 400000 :=
  scanTask_auto_scan 400000 0 0 (by decide) (by decide)

/-- C8: after every heartbeat attempt (wifi up and interval elapsed) the
new interval is 300000 ms exactly when the attempt succeeded and 30000
ms otherwise, regardless of the prior interval and history; and when a
gateway is present, success is exactly an HTTP POST status of 200, so
any non-200 status or negative transport-error code is a failure. -/
theorem heartbeat_interval_policy (now lastHB interval : Nat) (gw : IP) (code : Int)
    (h : now - lastHB ≥ interval) :
    (loopHeartbeatStep true now lastHB interval gw code).2
      = (if sendHeartbeat true gw code then 300000 else 30000)
    ∧ (loopHeartbeatStep true now lastHB interval gw code).1 = now
    ∧ (gw ≠ ((0 : Nat), (0 : Nat), (0 : Nat), (0 : Nat)) →
        (sendHeartbeat true gw code = true ↔ code = 200)) := by
  refine ⟨?_, ?_, ?_⟩
  · unfold loopHeartbeatStep
    rw [if_pos ⟨rfl, h⟩]
  · unfold loopHeartbeatStep
    rw [if_pos ⟨rfl, h⟩]
  · intro hgw
    unfold sendHeartbeat
    rw [if_neg hgw]
    simp

/-- Witness for C8 at a concrete attempt: now 300000, last heartbeat 0,
interval 300000, gateway 192.168.1.1, POST status 200. -/
theorem heartbeat_interval_policy_witness :
    (loopHeartbeatStep true 300000 0 300000 (192, 168, 1, 1) 200).2
      = (if sendHeartbeat true (192, 168, 1, 1) 200 then 300000 else 30000)
    ∧ (loopHeartbeatStep true 300000 0 300000 (192, 168, 1, 1) 200).1 = 300000
    ∧ (((192 : Nat), (168 : Nat), (1 : Nat), (1 : Nat)) ≠ ((0 : Nat), (0 : Nat), (0 : Nat), (0 : Nat)) →
        (sendHeartbeat true (192, 168, 1, 1) 200 = true ↔ (200 : Int) = 200)) :=
  heartbeat_interval_policy 300000 0 300000 (192, 168, 1, 1) 200 (by decide)

/-- C1 (amended): every externally exposed operation (trigger scan, list
registry entries, send wake packet, clear registry) is gated by the HTTP
basic-auth credential check alone: an unauthenticated caller receives an
immediate 401 with the operation not performed and no packet sent, and
an authenticated caller has the operation executed.  The source contains
no rate limiter, so no caller is ever throttled. -/
theorem handlers_credential_gate (scanReq : Nat) (reg : List String) (mac : List Char)
    (junk : Fin 6 → Nat) :
    handleScan false scanReq = (scanReq, 401)
    ∧ handleDevices false reg = (none, 401)
    ∧ (handleWake false mac junk).sent = none ∧ (handleWake false mac junk).code = 401
    ∧ handleClear false reg = (reg, 401)
    ∧ handleScan true 0 = (1, 200)
    ∧ handleDevices true reg = (some reg, 200)
    ∧ handleClear true reg = ([], 303)
    ∧ (handleWake true mac junk).sent.isSome = true := by
  refine ⟨rfl, rfl, rfl, rfl, rfl, rfl, rfl, rfl, ?_⟩
  simp [handleWake]

/-- C1: the claim as stated is false on the code: no operation is gated
by a rate limiter.  A caller that the backoff discipline of the spec
marks as throttled (two failures at time 0, so a 50000 ms penalty,
retrying at 1000 ms) still has the scan operation executed with a 200
reply the moment its credentials check out. -/
theorem throttled_caller_still_served :
    specThrottled 2 0 1000 = true ∧ handleScan true 0 = (1, 200) :=
  ⟨by decide, rfl⟩

/-- C3: the code violates the claim: handleWake never checks the sscanf
return value, so an authenticated request whose MAC argument is the
unparsable string not-a-mac (zero octets assigned) still broadcasts a
full 102-byte magic packet whose sixteen address repetitions are the six
uninitialized stack bytes of m, and answers with the 303 redirect
instead of a bad-request outcome. -/
theorem wake_malformed_sends_garbage (junk : Fin 6 → Nat) :
    (handleWake true ("not-a-mac".toList) junk).sent
      = some (List.replicate 6 255 ++ (List.replicate 16 (List.ofFn junk)).flatten)
    ∧ (handleWake true ("not-a-mac".toList) junk).code = 303 :=
  ⟨rfl, rfl⟩

/-- Unfolding of the successful-auth branch of handleWake. -/
theorem handleWake_true_sent (s : List Char) (junk : Fin 6 → Nat) :
    (handleWake true s junk).sent = some (buildMagicPacket (fun i : Fin 6 =>
      if hh : i.val < (sscanfMac s).length then (sscanfMac s).get ⟨i.val, hh⟩ else junk i)) :=
  rfl

/-- Length of the concatenation of n copies of a list. -/
theorem flatten_replicate_length (n : Nat) (l : List Nat) :
    (List.replicate n l).flatten.length = n * l.length := by
  induction n with
  | zero => simp
  | succ k ih => simp [List.replicate_succ, ih, Nat.succ_mul]; omega

/-- C5: for every MAC string that the sscanf of handleWake parses
completely into six octets a b c d e f, the transmitted packet is
exactly 102 bytes: bytes 0-5 are 0xFF and bytes 6-101 are the six
address octets repeated sixteen times. -/
theorem wake_packet_layout (s : List Char) (junk : Fin 6 → Nat) (a b c d e f : Nat)
    (h : sscanfMac s = [a, b, c, d, e, f]) :
    ∃ pkt, (handleWake true s junk).sent = some pkt
      ∧ pkt.length = 102
      ∧ pkt.take 6 = List.replicate 6 255
      ∧ pkt.drop 6 = (List.replicate 16 [a, b, c, d, e, f]).flatten := by
  refine ⟨List.replicate 6 255 ++ (List.replicate 16 [a, b, c, d, e, f]).flatten, ?_, ?_, ?_, ?_⟩
  · rw [handleWake_true_sent, h]
    rfl
  · simp [List.length_append, flatten_replicate_length]
  · exact List.take_left' (by simp)
  · exact List.drop_left' (by simp)

/-- Witness for C5 on the MAC AA:BB:CC:DD:EE:FF with zeroed stack
memory. -/
theorem wake_packet_layout_witness :
    ∃ pkt, (handleWake true ("AA:BB:CC:DD:EE:FF".toList) (fun _ => 0)).sent = some pkt
      ∧ pkt.length = 102
      ∧ pkt.take 6 = List.replicate 6 255
      ∧ pkt.drop 6 = (List.replicate 16 [170, 187, 204, 221, 238, 255]).flatten :=
  wake_packet_layout ("AA:BB:CC:DD:EE:FF".toList) (fun _ => 0) 170 187 204 221 238 255 rfl

/-- addDevice either leaves the registry untouched or appends the new
entry at the end, so positions of earlier entries never change. -/
theorem addDevice_keep_or_append (r : List String) (m : String) :
    (addDevice r m).1 = r ∨ (addDevice r m).1 = r ++ [m] := by
  unfold addDevice
  split_ifs with h1 h2
  · exact Or.inl rfl
  · exact Or.inr rfl
  · exact Or.inl rfl

/-- addDevice preserves the no-duplicates and capacity invariants. -/
theorem addDevice_inv (r : List String) (m : String) (h : r.Nodup ∧ r.length ≤ 32) :
    (addDevice r m).1.Nodup ∧ (addDevice r m).1.length ≤ 32 := by
  unfold addDevice MAX_DEVICES
  split_ifs with h1 h2
  · exact h
  · constructor
    · simp [List.nodup_append, h1, h.1]
    · simp only [List.length_append, List.length_singleton]
      omega
  · exact h

/-- The registry built by any sequence of adds from empty has no
duplicates and at most 32 entries. -/
theorem runAdds_inv (macs : List String) :
    (runAdds macs).Nodup ∧ (runAdds macs).length ≤ 32 := by
  have key : ∀ (l r : List String), r.Nodup → r.length ≤ 32 →
      ((l.foldl (fun r m => (addDevice r m).1) r).Nodup
        ∧ (l.foldl (fun r m => (addDevice r m).1) r).length ≤ 32) := by
    intro l
    induction l with
    | nil => intro r h1 h2; exact ⟨h1, h2⟩
    | cons m l ih =>
      intro r h1 h2
      have h3 := addDevice_inv r m ⟨h1, h2⟩
      simpa [List.foldl_cons] using ih _ h3.1 h3.2
  exact key macs [] List.nodup_nil (by simp)

/-- C4: for every sequence of adds from the empty registry the registry
never contains two equal entries and never exceeds 32 entries, and the
devices page lists it in storage order; each add either keeps the list
or appends at the end (first-insertion order), a duplicate add is a
no-op returning false, and an add at full capacity leaves the registry
unchanged. -/
theorem registry_invariants (macs : List String) (r : List String) (m : String) :
    (runAdds macs).Nodup
    ∧ (runAdds macs).length ≤ 32
    ∧ handleDevices true (runAdds macs) = (some (runAdds macs), 200)
    ∧ ((addDevice r m).1 = r ∨ (addDevice r m).1 = r ++ [m])
    ∧ (m ∈ r → addDevice r m = (r, false))
    ∧ (m ∉ r → 32 ≤ r.length → addDevice r m = (r, false)) := by
  refine ⟨(runAdds_inv macs).1, (runAdds_inv macs).2, rfl, addDevice_keep_or_append r m, ?_, ?_⟩
  · intro h
    unfold addDevice
    rw [if_pos h]
  · intro h1 h2
    unfold addDevice MAX_DEVICES
    rw [if_neg h1, if_neg (by omega)]

/-- Witness for C4: the add sequence AA, BB, AA yields a duplicate-free
registry, and re-adding AA to the singleton registry AA is a no-op. -/
theorem registry_invariants_witness :
    (runAdds ["AA", "BB", "AA"]).Nodup
    ∧ addDevice ["AA"] "AA" = (["AA"], false) :=
  ⟨(registry_invariants ["AA", "BB", "AA"] ["AA"] "AA").1,
   (registry_invariants ["AA", "BB", "AA"] ["AA"] "AA").2.2.2.2.1 (by simp)⟩

/-- When connectivity stays up, the hosts handed to Ping.ping by the
scan loop are, in order, the candidates of the enumerated range whose
address differs from both the local IP and the gateway. -/
theorem scanLoop_fst (wifi : Nat → Bool) (lip gw : IP) (resolve : Nat → Option (List Nat))
    (hw : ∀ j, wifi j = true) :
    ∀ (fuel i : Nat) (reg : List String),
      (scanLoop wifi lip gw resolve i fuel reg).1
        = ((List.range' i fuel).map (subnetHost lip)).filter
            (fun t => !decide (t = lip ∨ t = gw)) := by
  intro fuel
  induction fuel with
  | zero =>
    intro i reg
    simp [scanLoop]
  | succ n ih =>
    intro i reg
    rw [List.range'_succ, List.map_cons, List.filter_cons]
    by_cases hskip : subnetHost lip i = lip ∨ subnetHost lip i = gw
    · simp [scanLoop, hw i, hskip, ih]
    · simp [scanLoop, hw i, hskip, ih]

/-- When no host ever resolves, the scan loop never touches the
registry. -/
theorem scanLoop_snd (wifi : Nat → Bool) (lip gw : IP) (resolve : Nat → Option (List Nat))
    (hres : ∀ j, resolve j = none) :
    ∀ (fuel i : Nat) (reg : List String),
      (scanLoop wifi lip gw resolve i fuel reg).2 = reg := by
  intro fuel
  induction fuel with
  | zero =>
    intro i reg
    simp [scanLoop]
  | succ n ih =>
    intro i reg
    cases hwi : wifi i with
    | false => simp [scanLoop, hwi]
    | true =>
      by_cases hskip : subnetHost lip i = lip ∨ subnetHost lip i = gw
      · simp [scanLoop, hwi, hskip, ih]
      · simp [scanLoop, hwi, hskip, hres i, ih]

/-- C6: with the interface ready, a non-zero local address and
connectivity up throughout, a scan pass probes exactly the candidates
.1 through .254 of the local /24 other than the local IP and the
gateway, in increasing address order, each exactly once, and never
probes the local IP or the gateway. -/
theorem doScan_probe_order (wifi : Nat → Bool) (lip gw : IP)
    (resolve : Nat → Option (List Nat)) (reg : List String)
    (hw : ∀ j, wifi j = true) (hip : lip ≠ ((0 : Nat), (0 : Nat), (0 : Nat), (0 : Nat))) :
    (doScan true wifi lip gw resolve reg).1
      = ((List.range' 1 254).map (subnetHost lip)).filter (fun t => !decide (t = lip ∨ t = gw))
    ∧ ((doScan true wifi lip gw resolve reg).1).Pairwise (fun x y : IP => x.2.2.2 < y.2.2.2)
    ∧ lip ∉ (doScan true wifi lip gw resolve reg).1
    ∧ gw ∉ (doScan true wifi lip gw resolve reg).1
    ∧ ((doScan true wifi lip gw resolve reg).1).Nodup
    ∧ (∀ i, 1 ≤ i → i ≤ 254 → subnetHost lip i ≠ lip → subnetHost lip i ≠ gw →
        subnetHost lip i ∈ (doScan true wifi lip gw resolve reg).1)
    ∧ (∀ t, t ∈ (doScan true wifi lip gw resolve reg).1 →
        ∃ i, 1 ≤ i ∧ i ≤ 254 ∧ t = subnetHost lip i) := by
  have hunf : (doScan true wifi lip gw resolve reg).1
      = ((List.range' 1 254).map (subnetHost lip)).filter
          (fun t => !decide (t = lip ∨ t = gw)) := by
    simp only [doScan]
    rw [if_neg hip]
    exact scanLoop_fst wifi lip gw resolve hw 254 1 reg
  have hinj : Function.Injective (subnetHost lip) := by
    intro a b hab
    exact congrArg (fun t : IP => t.2.2.2) hab
  have hpair : (((List.range' 1 254).map (subnetHost lip)).filter
      (fun t => !decide (t = lip ∨ t = gw))).Pairwise (fun x y : IP => x.2.2.2 < y.2.2.2) := by
    refine List.Pairwise.sublist (List.filter_sublist _) ?_
    refine List.Pairwise.map (subnetHost lip) (fun a b hab => ?_) (List.pairwise_lt_range' 1 254)
    exact hab
  have hnd : (((List.range' 1 254).map (subnetHost lip)).filter
      (fun t => !decide (t = lip ∨ t = gw))).Nodup :=
    (((List.nodup_range' 1 254).map hinj).filter _)
  refine ⟨hunf, ?_, ?_, ?_, ?_, ?_, ?_⟩
  · rw [hunf]
    exact hpair
  · rw [hunf]
    intro hmem
    have hp := List.of_mem_filter hmem
    simp at hp
  · rw [hunf]
    intro hmem
    have hp := List.of_mem_filter hmem
    simp at hp
  · rw [hunf]
    exact hnd
  · intro i h1 h2 h3 h4
    rw [hunf]
    refine List.mem_filter.mpr ⟨List.mem_map.mpr ⟨i, List.mem_range'_1.mpr ⟨h1, by omega⟩, rfl⟩, ?_⟩
    simp [h3, h4]
  · intro t ht
    rw [hunf] at ht
    obtain ⟨htm, -⟩ := List.mem_filter.mp ht
    obtain ⟨i, hi, rfl⟩ := List.mem_map.mp htm
    obtain ⟨hi1, hi2⟩ := List.mem_range'_1.mp hi
    exact ⟨i, hi1, by omega, rfl⟩

/-- Witness for C6 at local IP 192.168.1.50 and gateway 192.168.1.1:
neither .50 nor .1 is probed, the probe list has no repetitions, and
candidate .2 is probed. -/
theorem doScan_probe_order_witness :
    ((192 : Nat), (168 : Nat), (1 : Nat), (50 : Nat))
      ∉ (doScan true (fun _ => true) (192, 168, 1, 50) (192, 168, 1, 1) (fun _ => none) []).1
    ∧ ((192 : Nat), (168 : Nat), (1 : Nat), (1 : Nat))
      ∉ (doScan true (fun _ => true) (192, 168, 1, 50) (192, 168, 1, 1) (fun _ => none) []).1
    ∧ ((doScan true (fun _ => true) (192, 168, 1, 50) (192, 168, 1, 1) (fun _ => none) []).1).Nodup
    ∧ subnetHost (192, 168, 1, 50) 2
        ∈ (doScan true (fun _ => true) (192, 168, 1, 50) (192, 168, 1, 1) (fun _ => none) []).1 := by
  have h := doScan_probe_order (fun _ => true) (192, 168, 1, 50) (192, 168, 1, 1)
    (fun _ => none) [] (fun _ => rfl) (by decide)
  exact ⟨h.2.2.1, h.2.2.2.1, h.2.2.2.2.1,
    h.2.2.2.2.2.1 2 (by decide) (by decide) (by decide) (by decide)⟩

/-- C7: a scan pass in which every address-resolution attempt fails
leaves the registry exactly as it was, and under the pass conditions
(interface ready, valid local IP, connectivity up) it still completes
the full sweep of candidates. -/
theorem scan_unresolved_registry_unchanged (netifReady : Bool) (wifi : Nat → Bool)
    (lip gw : IP) (resolve : Nat → Option (List Nat)) (reg : List String)
    (hres : ∀ j, resolve j = none) :
    (doScan netifReady wifi lip gw resolve reg).2 = reg
    ∧ (netifReady = true → lip ≠ ((0 : Nat), (0 : Nat), (0 : Nat), (0 : Nat)) →
        (∀ j, wifi j = true) →
        (doScan netifReady wifi lip gw resolve reg).1
          = ((List.range' 1 254).map (subnetHost lip)).filter
              (fun t => !decide (t = lip ∨ t = gw))) := by
  constructor
  · cases netifReady with
    | false => rfl
    | true =>
      simp only [doScan]
      by_cases hip : lip = ((0 : Nat), (0 : Nat), (0 : Nat), (0 : Nat))
      · rw [if_pos hip]
      · rw [if_neg hip]
        exact scanLoop_snd wifi lip gw resolve hres 254 1 reg
  · intro hn hip hw
    subst hn
    simp only [doScan]
    rw [if_neg hip]
    exact scanLoop_fst wifi lip gw resolve hw 254 1 reg

/-- Witness for C7: a pass over 192.168.1.0/24 in which no host ever
resolves leaves a one-entry registry exactly as it was. -/
theorem scan_unresolved_registry_unchanged_witness :
    (doScan true (fun _ => true) (192, 168, 1, 50) (192, 168, 1, 1) (fun _ => none)
      ["AA:BB:CC:DD:EE:01"]).2 = ["AA:BB:CC:DD:EE:01"] :=
  (scan_unresolved_registry_unchanged true (fun _ => true) (192, 168, 1, 50) (192, 168, 1, 1)
    (fun _ => none) ["AA:BB:CC:DD:EE:01"] (fun _ => rfl)).1
